import Mathlib

/-!
Shallow embedding of `src/timeseries-analysis/src/lib.rs` (Rust), a
time-series analysis library: OLS linear regression, error metrics,
forecasting, descriptive statistics and an ASCII plot.

Conventions of the embedding:
* `f64` values are modelled as exact rationals `ℚ`; `f64::EPSILON` is the
  rational constant `2 ^ (-52)`.
* `Vec<f64>` / `&[f64]` become `List ℚ`.
* `Result<T, TimeSeriesError>` becomes `Except TimeSeriesError T`.
* `f64::INFINITY` / `f64::NEG_INFINITY`, which only occur as initial
  accumulators of min/max folds, are modelled as `⊤ : WithTop ℚ` and
  `⊥ : WithBot ℚ`.
* `f64::sqrt` is modelled as `Real.sqrt` on the rational cast to `ℝ`.
* The console output of `ascii_plot` is modelled as the list of printed
  lines, each line abstracted to a `PlotLine` value that records the data
  that determines it (string formatting of numbers is not modelled).
-/

namespace Timewise

/-- `f64::EPSILON` as an exact rational: 2^(-52). -/
def f64Epsilon : ℚ := 1 / 2 ^ 52

/-- Rust struct `LinearRegressionResult`. -/
structure LinearRegressionResult where
  slope : ℚ
  intercept : ℚ
  r_squared : ℚ
  mse : ℚ
  predictions : List ℚ
deriving Repr, DecidableEq

/-- Rust struct `TimeSeriesError` (a tagged error carrying a message). -/
structure TimeSeriesError where
  message : String
deriving Repr, DecidableEq

/-- Rust `calculate_mse`: returns 0.0 on shape mismatch or empty input,
otherwise the mean of squared differences. -/
def calculate_mse (actual predicted : List ℚ) : ℚ :=
  if actual.length ≠ predicted.length ∨ actual.isEmpty then 0
  else
    (List.zipWith (fun a p => (a - p) ^ 2) actual predicted).sum /
      (actual.length : ℚ)

/-- Rust `calculate_r_squared`: returns 0.0 on shape mismatch or empty input;
returns 1.0 when `|total_sum_squares| < f64::EPSILON`; otherwise
`1 - residual_sum_squares / total_sum_squares`. -/
def calculate_r_squared (actual predicted : List ℚ) (y_mean : ℚ) : ℚ :=
  if actual.length ≠ predicted.length ∨ actual.isEmpty then 0
  else
    let total_sum_squares := (actual.map (fun y => (y - y_mean) ^ 2)).sum
    let residual_sum_squares :=
      (List.zipWith (fun a p => (a - p) ^ 2) actual predicted).sum
    if |total_sum_squares| < f64Epsilon then 1
    else 1 - residual_sum_squares / total_sum_squares

/-- Rust `linear_regression`: errors on fewer than 2 observations, otherwise
fits slope/intercept by OLS over x = 0..n-1, with a numerical-zero guard on
the slope denominator, and packages predictions, MSE and R². -/
def linear_regression (data : List ℚ) :
    Except TimeSeriesError LinearRegressionResult :=
  if data.length < 2 then
    Except.error ⟨"Dados insuficientes para regressão linear"⟩
  else
    let n : ℚ := data.length
    let x : List ℚ := (List.range data.length).map (fun (i : ℕ) => (i : ℚ))
    let x_mean := x.sum / n
    let y_mean := data.sum / n
    let numerator :=
      (List.zipWith (fun xi yi => (xi - x_mean) * (yi - y_mean)) x data).sum
    let denominator := (x.map (fun xi => (xi - x_mean) ^ 2)).sum
    let slope := if |denominator| < f64Epsilon then 0 else numerator / denominator
    let intercept := y_mean - slope * x_mean
    let predictions := x.map (fun xi => intercept + slope * xi)
    let mse := calculate_mse data predictions
    let r_squared := calculate_r_squared data predictions y_mean
    Except.ok ⟨slope, intercept, r_squared, mse, predictions⟩

/-- Rust `predict_future`: extrapolates `future_periods` values past the end
of the fitted sequence, `forecast[i] = intercept + slope * (n + i)`. -/
def predict_future (result : LinearRegressionResult)
    (future_periods : Nat) : List ℚ :=
  let n := result.predictions.length
  (List.range future_periods).map
    (fun i => result.intercept + result.slope * ((n + i : Nat) : ℚ))

/-- The source's min fold `data.iter().fold(f64::INFINITY, |a, &b| a.min(b))`,
with `f64::INFINITY` modelled as `⊤ : WithTop ℚ`. -/
def foldMin (l : List ℚ) : WithTop ℚ :=
  l.foldl (fun a b => min a (b : WithTop ℚ)) ⊤

/-- The source's max fold
`data.iter().fold(f64::NEG_INFINITY, |a, &b| a.max(b))`, with
`f64::NEG_INFINITY` modelled as `⊥ : WithBot ℚ`. -/
def foldMax (l : List ℚ) : WithBot ℚ :=
  l.foldl (fun a b => max a (b : WithBot ℚ)) ⊥

/-- Rust `calculate_descriptive_stats`: errors on empty input, otherwise
returns (mean, population standard deviation, min, max). The standard
deviation is `Real.sqrt` of the rational variance; min/max are the source's
folds from `⊤` and `⊥`. -/
noncomputable def calculate_descriptive_stats (data : List ℚ) :
    Except TimeSeriesError (ℚ × ℝ × WithTop ℚ × WithBot ℚ) :=
  if data.isEmpty then
    Except.error ⟨"Dados vazios para cálculo de estatísticas"⟩
  else
    let n : ℚ := data.length
    let mean := data.sum / n
    let variance := (data.map (fun x => (x - mean) ^ 2)).sum / n
    let std_dev := Real.sqrt (variance : ℝ)
    Except.ok (mean, std_dev, foldMin data, foldMax data)

/-- One cell of the ASCII plot grid. -/
inductive PlotCell where
  | overlap
  | actualOnly
  | predictedOnly
  | blank
deriving Repr, DecidableEq

/-- One printed line of `ascii_plot`, abstracted to the data determining it. -/
inductive PlotLine where
  | diagnostic (msg : String)
  | titleLine (t : String)
  | separator (width : Nat)
  | gridRow (threshold : ℚ) (cells : List PlotCell)
  | axis (width : Nat)
  | periodLabels (n : Nat)
  | legendLine (s : String)
deriving Repr, DecidableEq

/-- The cell drawn for one column of one grid row. -/
def plotCell (threshold a p : ℚ) : PlotCell :=
  if a ≥ threshold ∧ p ≥ threshold then PlotCell.overlap
  else if a ≥ threshold then PlotCell.actualOnly
  else if p ≥ threshold then PlotCell.predictedOnly
  else PlotCell.blank

/-- The combined value range `max - min` over both sequences, as computed by
`ascii_plot` (folds from the infinities; the `untop'`/`unbot'` defaults are
never reached on the non-empty inputs `ascii_plot` feeds them). -/
def plotRange (actual predicted : List ℚ) : ℚ :=
  (foldMax (actual ++ predicted)).unbot' 0 -
    (foldMin (actual ++ predicted)).untop' 0

/-- Rust `ascii_plot`, modelled as the list of printed lines: a diagnostic
line on invalid shape or degenerate range, otherwise title, separator, ten
grid rows from the top band down, axis, period labels and the legend. -/
def ascii_plot (actual predicted : List ℚ) (t : String) : List PlotLine :=
  if actual.isEmpty ∨ actual.length ≠ predicted.length then
    [PlotLine.diagnostic "Dados inválidos para plotagem"]
  else
    let height : Nat := 10
    let width : Nat := actual.length * 2
    let min_val : ℚ := (foldMin (actual ++ predicted)).untop' 0
    let range : ℚ := plotRange actual predicted
    if |range| < f64Epsilon then
      [PlotLine.diagnostic "Intervalo de dados muito pequeno para plotagem"]
    else
      [PlotLine.titleLine t, PlotLine.separator (min width 60 + 12)] ++
      ((List.range height).reverse.map (fun row =>
        let threshold := min_val + range * (row : ℚ) / (height : ℚ)
        PlotLine.gridRow threshold
          (List.zipWith (fun a p => plotCell threshold a p) actual predicted)))
      ++
      [PlotLine.axis (min width 60 + 2),
       PlotLine.periodLabels actual.length,
       PlotLine.legendLine "o = Valor Real",
       PlotLine.legendLine "x = Valor Previsto",
       PlotLine.legendLine "● = Real e Previsto (sobrepostos)"]

/-! ### Spec-side definitions

These name the OLS formulas exactly as the specification states them; the
claim theorems compare `linear_regression` against them. -/

/-- Spec formula: mean of the synthesized x values `0, 1, …, n-1`. -/
def specXMean (n : ℕ) : ℚ := (∑ i ∈ Finset.range n, (i : ℚ)) / n

/-- Spec formula: mean of the observed values. -/
def specYMean (data : List ℚ) : ℚ := data.sum / data.length

/-- Spec formula: OLS slope numerator `Σ (x_i - x̄) * (y_i - ȳ)`. -/
def specSlopeNum (data : List ℚ) : ℚ :=
  ∑ i ∈ Finset.range data.length,
    ((i : ℚ) - specXMean data.length) * (data.getD i 0 - specYMean data)

/-- Spec formula: OLS slope denominator `Σ (x_i - x̄)²`. -/
def specSlopeDen (n : ℕ) : ℚ :=
  ∑ i ∈ Finset.range n, ((i : ℚ) - specXMean n) ^ 2

/-- Spec formula: OLS slope with the numerical-zero guard on the denominator. -/
def specSlope (data : List ℚ) : ℚ :=
  if |specSlopeDen data.length| < f64Epsilon then 0
  else specSlopeNum data / specSlopeDen data.length

/-- Spec formula: `intercept = ȳ - slope * x̄`. -/
def specIntercept (data : List ℚ) : ℚ :=
  specYMean data - specSlope data * specXMean data.length

/-- Spec formula: `predictions[i] = intercept + slope * i` for `i < n`. -/
def specPredictions (data : List ℚ) : List ℚ :=
  (List.range data.length).map
    (fun (i : ℕ) => specIntercept data + specSlope data * (i : ℚ))

/-! ### Helper lemmas: list sums as `Finset.range` sums -/

lemma sum_map_list_range (f : ℕ → ℚ) (n : ℕ) :
    ((List.range n).map f).sum = ∑ i ∈ Finset.range n, f i := by
  induction n with
  | zero => simp
  | succ n ih => rw [List.range_succ, Finset.sum_range_succ]; simp [ih]

lemma map_eq_map_range (f : ℚ → ℚ) (l : List ℚ) :
    l.map f = (List.range l.length).map (fun (i : ℕ) => f (l.getD i 0)) := by
  apply List.ext_getElem
  · simp
  · intro i h1 h2
    have hi : i < l.length := by simpa using h1
    simp [List.getD_eq_getElem?_getD, List.getElem?_eq_getElem, hi]

lemma zipWith_eq_map_range (g : ℚ → ℚ → ℚ) (l1 l2 : List ℚ)
    (h : l1.length = l2.length) :
    List.zipWith g l1 l2 =
      (List.range l1.length).map (fun (i : ℕ) => g (l1.getD i 0) (l2.getD i 0)) := by
  apply List.ext_getElem
  · simp [h]
  · intro i h1 h2
    have hi1 : i < l1.length := by simp [h] at h1; omega
    have hi2 : i < l2.length := by omega
    simp [List.getD_eq_getElem?_getD, List.getElem?_eq_getElem, hi1, hi2]

lemma zipWith_cast_range (g : ℚ → ℚ → ℚ) (l : List ℚ) :
    List.zipWith g ((List.range l.length).map fun (i : ℕ) => (i : ℚ)) l
      = (List.range l.length).map (fun (i : ℕ) => g (i : ℚ) (l.getD i 0)) := by
  apply List.ext_getElem
  · simp
  · intro i h1 h2
    have hi : i < l.length := by simpa using h1
    simp [List.getD_eq_getElem?_getD, List.getElem?_eq_getElem, hi]

/-! ### Helper lemmas: the regression result in spec form -/

/-- Master unfolding: on input of length at least 2, `linear_regression`
returns exactly the record built from the spec formulas. -/
lemma linear_regression_eq (data : List ℚ) (h : 2 ≤ data.length) :
    linear_regression data = Except.ok
      { slope := specSlope data
        intercept := specIntercept data
        r_squared := calculate_r_squared data (specPredictions data) (specYMean data)
        mse := calculate_mse data (specPredictions data)
        predictions := specPredictions data } := by
  have hlt : ¬ data.length < 2 := by omega
  simp only [linear_regression, hlt, if_false]
  have hxm : ((List.range data.length).map fun (i : ℕ) => (i : ℚ)).sum / (data.length : ℚ)
      = specXMean data.length := by
    rw [sum_map_list_range]; rfl
  rw [hxm]
  have hnum : (List.zipWith
        (fun xi yi => (xi - specXMean data.length) * (yi - data.sum / (data.length : ℚ)))
        ((List.range data.length).map fun (i : ℕ) => (i : ℚ)) data).sum = specSlopeNum data := by
    rw [zipWith_cast_range, sum_map_list_range]; rfl
  rw [hnum]
  have hden : (((List.range data.length).map fun (i : ℕ) => (i : ℚ)).map
        (fun xi => (xi - specXMean data.length) ^ 2)).sum = specSlopeDen data.length := by
    rw [List.map_map, sum_map_list_range]; rfl
  rw [hden]
  have hslope : (if |specSlopeDen data.length| < f64Epsilon then 0
      else specSlopeNum data / specSlopeDen data.length) = specSlope data := rfl
  rw [hslope]
  have hint : data.sum / (data.length : ℚ) - specSlope data * specXMean data.length
      = specIntercept data := rfl
  rw [hint]
  have hpred : ((List.range data.length).map fun (i : ℕ) => (i : ℚ)).map
      (fun xi => specIntercept data + specSlope data * xi) = specPredictions data := by
    rw [List.map_map]; rfl
  rw [hpred]
  rfl

/-! ### Helper lemmas: sign facts about the metric sums -/

lemma rss_nonneg (a p : List ℚ) :
    0 ≤ (List.zipWith (fun x y => (x - y) ^ 2) a p).sum := by
  induction a generalizing p with
  | nil => simp
  | cons x xs ih =>
    cases p with
    | nil => simp
    | cons y ys =>
      simp only [List.zipWith_cons_cons, List.sum_cons]
      exact add_nonneg (sq_nonneg _) (ih ys)

lemma tss_nonneg (a : List ℚ) (m : ℚ) :
    0 ≤ (a.map (fun y => (y - m) ^ 2)).sum := by
  apply List.sum_nonneg
  intro x hx
  rw [List.mem_map] at hx
  obtain ⟨y, _, rfl⟩ := hx
  exact sq_nonneg _

lemma f64Epsilon_pos : 0 < f64Epsilon := by norm_num [f64Epsilon]

lemma calculate_r_squared_le_one (a p : List ℚ) (m : ℚ) :
    calculate_r_squared a p m ≤ 1 := by
  simp only [calculate_r_squared]
  split_ifs with h1 h2
  · norm_num
  · exact le_rfl
  · have htss : 0 ≤ (a.map (fun y => (y - m) ^ 2)).sum := tss_nonneg a m
    have hrss : 0 ≤ (List.zipWith (fun x y => (x - y) ^ 2) a p).sum := rss_nonneg a p
    have htp : 0 < (a.map (fun y => (y - m) ^ 2)).sum := by
      rcases lt_or_eq_of_le htss with h | h
      · exact h
      · exfalso; apply h2; rw [← h, abs_zero]; exact f64Epsilon_pos
    have : 0 ≤ (List.zipWith (fun x y => (x - y) ^ 2) a p).sum /
        (a.map (fun y => (y - m) ^ 2)).sum := div_nonneg hrss htss
    linarith

lemma calculate_mse_nonneg (a p : List ℚ) : 0 ≤ calculate_mse a p := by
  simp only [calculate_mse]
  split_ifs with h1
  · exact le_rfl
  · exact div_nonneg (rss_nonneg a p) (Nat.cast_nonneg _)

lemma zip_self_sum_zero (l : List ℚ) :
    (List.zipWith (fun a p => (a - p) ^ 2) l l).sum = 0 := by
  induction l with
  | nil => simp
  | cons x xs ih => simp [ih]

lemma calculate_r_squared_self (l : List ℚ) (h : l ≠ []) (m : ℚ) :
    calculate_r_squared l l m = 1 := by
  simp only [calculate_r_squared]
  rw [if_neg]
  · rw [zip_self_sum_zero]
    split_ifs with h1
    · rfl
    · simp
  · simp [h]

lemma r_squared_one_of_rss_zero (a p : List ℚ) (m : ℚ)
    (hlen : a.length = p.length) (hne : a ≠ [])
    (hrss : (List.zipWith (fun x y => (x - y) ^ 2) a p).sum = 0) :
    calculate_r_squared a p m = 1 := by
  simp only [calculate_r_squared]
  rw [if_neg]
  · rw [hrss]
    split_ifs with h1
    · rfl
    · simp
  · simp [hlen, hne]

lemma mse_zero_rss (a p : List ℚ) (hlen : a.length = p.length) (hne : a ≠ [])
    (h : calculate_mse a p = 0) :
    (List.zipWith (fun x y => (x - y) ^ 2) a p).sum = 0 := by
  simp only [calculate_mse] at h
  rw [if_neg (by simp [hlen, hne])] at h
  rcases div_eq_zero_iff.mp h with h0 | h0
  · exact h0
  · exfalso
    have : a.length = 0 := by exact_mod_cast h0
    exact hne (List.eq_nil_of_length_eq_zero this)

/-! ### Helper lemmas: the slope denominator is bounded below -/

lemma specXMean_eq (n : ℕ) (h : 1 ≤ n) : specXMean n = ((n : ℚ) - 1) / 2 := by
  have h0 := Finset.sum_range_id_mul_two n
  have h1 : ((∑ i ∈ Finset.range n, i : ℕ) : ℚ) * 2 = (n : ℚ) * ((n : ℚ) - 1) := by
    rw [← Nat.cast_ofNat, ← Nat.cast_mul, h0]
    push_cast [Nat.cast_sub h]
    ring
  have h2 : (∑ i ∈ Finset.range n, (i : ℚ)) = (n : ℚ) * ((n : ℚ) - 1) / 2 := by
    push_cast at h1
    linarith
  rw [specXMean, h2]
  have hn : (n : ℚ) ≠ 0 := Nat.cast_ne_zero.mpr (by omega)
  field_simp
  ring

lemma specSlopeDen_ge_half (n : ℕ) (h : 2 ≤ n) : (1 : ℚ)/2 ≤ specSlopeDen n := by
  have hx : specXMean n = ((n : ℚ) - 1) / 2 := specXMean_eq n (by omega)
  have hsub : ({0, n - 1} : Finset ℕ) ⊆ Finset.range n := by
    intro i hi
    simp only [Finset.mem_insert, Finset.mem_singleton] at hi
    rcases hi with rfl | rfl <;> simp [Finset.mem_range] <;> omega
  have hple : ∑ i ∈ ({0, n - 1} : Finset ℕ), ((i : ℚ) - specXMean n) ^ 2 ≤
      ∑ i ∈ Finset.range n, ((i : ℚ) - specXMean n) ^ 2 :=
    Finset.sum_le_sum_of_subset_of_nonneg hsub (fun i _ _ => sq_nonneg _)
  have hpair : ∑ i ∈ ({0, n - 1} : Finset ℕ), ((i : ℚ) - specXMean n) ^ 2 =
      ((0 : ℚ) - specXMean n) ^ 2 + (((n - 1 : ℕ) : ℚ) - specXMean n) ^ 2 := by
    rw [Finset.sum_pair (by omega)]
    norm_num
  have hcast : ((n - 1 : ℕ) : ℚ) = (n : ℚ) - 1 := by
    push_cast [Nat.cast_sub (by omega : 1 ≤ n)]
    ring
  have hq : (2 : ℚ) ≤ (n : ℚ) := by exact_mod_cast h
  rw [hpair, hx, hcast] at hple
  unfold specSlopeDen
  rw [hx]
  nlinarith [hple, sq_nonneg ((n : ℚ) - 2)]

/-! ### Helper lemma: a concrete fitted regression -/

/-- `linear_regression` on `[0, 1]` fits the exact line y = x. -/
lemma linear_regression_example :
    linear_regression [0, 1] = Except.ok ⟨1, 0, 1, 0, [0, 1]⟩ := by
  have h : |(1 : ℚ)/2| = 1/2 := abs_of_nonneg (by norm_num)
  simp [linear_regression, calculate_mse, calculate_r_squared, f64Epsilon,
    List.range_succ]
  norm_num [h]

/-! ### Claim theorems -/

/-- Claim C1: for every series of length at least 2, `linear_regression`
succeeds; the slope is the OLS formula with the epsilon guard, the intercept
is `ȳ - slope * x̄`, and the predictions have length n with
`predictions[i] = intercept + slope * i`. -/
theorem linear_regression_ols (data : List ℚ) (h : 2 ≤ data.length) :
    ∃ r, linear_regression data = Except.ok r ∧
      r.slope = specSlope data ∧
      r.intercept = specYMean data - r.slope * specXMean data.length ∧
      r.predictions.length = data.length ∧
      ∀ i, i < data.length →
        r.predictions.getD i 0 = r.intercept + r.slope * (i : ℚ) := by
  refine ⟨_, linear_regression_eq data h, rfl, rfl, ?_, ?_⟩
  · simp [specPredictions]
  · intro i hi
    simp [specPredictions, List.getD_eq_getElem?_getD, List.getElem?_eq_getElem, hi]

theorem linear_regression_ols_witness :
    2 ≤ ([1, 3] : List ℚ).length ∧
    (∃ r, linear_regression [1, 3] = Except.ok r ∧
      r.slope = specSlope [1, 3] ∧
      r.intercept = specYMean [1, 3] - r.slope * specXMean ([1, 3] : List ℚ).length ∧
      r.predictions.length = ([1, 3] : List ℚ).length ∧
      ∀ i, i < ([1, 3] : List ℚ).length →
        r.predictions.getD i 0 = r.intercept + r.slope * (i : ℚ)) :=
  ⟨by decide, linear_regression_ols [1, 3] (by decide)⟩

/-- Claim C2: `linear_regression` returns the insufficient-data error exactly
on inputs of length 0 or 1, and succeeds exactly on length at least 2. -/
theorem linear_regression_error_iff (data : List ℚ) :
    (linear_regression data =
        Except.error ⟨"Dados insuficientes para regressão linear"⟩ ↔
      data.length < 2) ∧
    ((∃ r, linear_regression data = Except.ok r) ↔ 2 ≤ data.length) := by
  by_cases h : data.length < 2
  · constructor
    · simp [linear_regression, h]
    · simp [linear_regression, h]
  · rw [linear_regression_eq data (by omega)]
    constructor
    · simp
      omega
    · simp
      omega

/-- Claim C3: `calculate_r_squared` returns 0 on shape mismatch or empty
input; otherwise 1 when the total sum of squares is within machine epsilon
of zero, and `1 - rss / tss` otherwise. -/
theorem calculate_r_squared_spec (actual predicted : List ℚ) (y_mean : ℚ) :
    ((actual.length ≠ predicted.length ∨ actual = []) →
      calculate_r_squared actual predicted y_mean = 0) ∧
    (actual.length = predicted.length → actual ≠ [] →
      ((|∑ i ∈ Finset.range actual.length, (actual.getD i 0 - y_mean) ^ 2| <
          f64Epsilon →
        calculate_r_squared actual predicted y_mean = 1) ∧
       (¬ |∑ i ∈ Finset.range actual.length, (actual.getD i 0 - y_mean) ^ 2| <
          f64Epsilon →
        calculate_r_squared actual predicted y_mean =
          1 - (∑ i ∈ Finset.range actual.length,
                 (actual.getD i 0 - predicted.getD i 0) ^ 2) /
              (∑ i ∈ Finset.range actual.length,
                 (actual.getD i 0 - y_mean) ^ 2)))) := by
  constructor
  · intro h
    rw [calculate_r_squared, if_pos]
    rcases h with h | h
    · exact Or.inl h
    · exact Or.inr (by simp [h])
  · intro hlen hne
    have htss : (actual.map (fun y => (y - y_mean) ^ 2)).sum =
        ∑ i ∈ Finset.range actual.length, (actual.getD i 0 - y_mean) ^ 2 := by
      rw [map_eq_map_range, sum_map_list_range]
    have hrss : (List.zipWith (fun a p => (a - p) ^ 2) actual predicted).sum =
        ∑ i ∈ Finset.range actual.length,
          (actual.getD i 0 - predicted.getD i 0) ^ 2 := by
      rw [zipWith_eq_map_range _ _ _ hlen, sum_map_list_range]
    constructor
    · intro hg
      rw [calculate_r_squared, if_neg (by simp [hlen, hne])]
      simp only
      rw [htss, if_pos hg]
    · intro hg
      rw [calculate_r_squared, if_neg (by simp [hlen, hne])]
      simp only
      rw [htss, hrss, if_neg hg]

theorem calculate_r_squared_spec_witness :
    calculate_r_squared [1] [] 0 = 0 ∧
    calculate_r_squared [1, 2] [1, 2] 0 =
      1 - (∑ i ∈ Finset.range (([1, 2] : List ℚ).length),
             (([1, 2] : List ℚ).getD i 0 - ([1, 2] : List ℚ).getD i 0) ^ 2) /
          (∑ i ∈ Finset.range (([1, 2] : List ℚ).length),
             (([1, 2] : List ℚ).getD i 0 - 0) ^ 2) := by
  constructor
  · exact (calculate_r_squared_spec [1] [] 0).1 (Or.inl (by decide))
  · refine ((calculate_r_squared_spec [1, 2] [1, 2] 0).2 (by decide) (by decide)).2 ?_
    have h5 : (∑ i ∈ Finset.range (([1, 2] : List ℚ).length),
        (([1, 2] : List ℚ).getD i 0 - 0) ^ 2) = 5 := by
      norm_num [Finset.sum_range_succ]
    rw [h5, abs_of_nonneg (by norm_num : (0 : ℚ) ≤ 5)]
    norm_num [f64Epsilon]

/-- Claim C4: `calculate_descriptive_stats` errors exactly on empty input;
otherwise it returns the arithmetic mean, the population standard deviation
`sqrt(Σ (x_i - mean)² / n)`, and min/max folded from `⊤`/`⊥`; on
`[1,2,3,4,5]` it returns `(3, sqrt 2, 1, 5)`. -/
theorem calculate_descriptive_stats_spec :
    (∀ data : List ℚ,
      ((∃ e, calculate_descriptive_stats data = Except.error e) ↔ data = []) ∧
      (data ≠ [] →
        calculate_descriptive_stats data = Except.ok
          (specYMean data,
           Real.sqrt (((∑ i ∈ Finset.range data.length,
                (data.getD i 0 - specYMean data) ^ 2) / (data.length : ℚ) : ℚ) : ℝ),
           foldMin data, foldMax data))) ∧
    calculate_descriptive_stats [1, 2, 3, 4, 5] =
      Except.ok (3, Real.sqrt 2, ((1 : ℚ) : WithTop ℚ), ((5 : ℚ) : WithBot ℚ)) := by
  constructor
  · intro data
    by_cases hd : data = []
    · subst hd
      constructor
      · exact ⟨fun _ => rfl,
          fun _ => ⟨⟨"Dados vazios para cálculo de estatísticas"⟩, rfl⟩⟩
      · intro hne; exact absurd rfl hne
    · have hok : calculate_descriptive_stats data = Except.ok
          (specYMean data,
           Real.sqrt (((∑ i ∈ Finset.range data.length,
                (data.getD i 0 - specYMean data) ^ 2) / (data.length : ℚ) : ℚ) : ℝ),
           foldMin data, foldMax data) := by
        have hvar : (data.map (fun x => (x - data.sum / (data.length : ℚ)) ^ 2)).sum
            = ∑ i ∈ Finset.range data.length, (data.getD i 0 - specYMean data) ^ 2 := by
          rw [map_eq_map_range, sum_map_list_range]
          rfl
        rw [calculate_descriptive_stats, if_neg (by simp [hd])]
        dsimp only
        rw [hvar]
        rfl
      constructor
      · constructor
        · rintro ⟨e, he⟩
          rw [hok] at he
          exact Except.noConfusion he
        · intro h; exact absurd h hd
      · intro _; exact hok
  · rw [calculate_descriptive_stats, if_neg (by decide)]
    simp only [Except.ok.injEq, Prod.mk.injEq]
    refine ⟨?_, ?_, ?_, ?_⟩
    · norm_num
    · have h2 : (([1, 2, 3, 4, 5] : List ℚ).map
          (fun x => (x - ([1, 2, 3, 4, 5] : List ℚ).sum /
            (([1, 2, 3, 4, 5] : List ℚ).length : ℚ)) ^ 2)).sum /
          (([1, 2, 3, 4, 5] : List ℚ).length : ℚ) = 2 := by norm_num
      rw [h2]
      norm_num
    · decide
    · decide

theorem calculate_descriptive_stats_spec_witness :
    (∃ e, calculate_descriptive_stats [] = Except.error e) ∧
    calculate_descriptive_stats [1, 2] = Except.ok
      (specYMean [1, 2],
       Real.sqrt (((∑ i ∈ Finset.range (([1, 2] : List ℚ).length),
            (([1, 2] : List ℚ).getD i 0 - specYMean [1, 2]) ^ 2) /
          ((([1, 2] : List ℚ).length : ℕ) : ℚ) : ℚ) : ℝ),
       foldMin [1, 2], foldMax [1, 2]) :=
  ⟨(calculate_descriptive_stats_spec.1 []).1.mpr rfl,
   (calculate_descriptive_stats_spec.1 [1, 2]).2 (by decide)⟩

/-- Claim C5: `predict_future` returns exactly `count` values, the j-th being
`intercept + slope * (n + j)` where n is the fitted sequence's length; count
0 yields the empty list (immediate from the length clause). -/
theorem predict_future_spec (result : LinearRegressionResult) (k : ℕ) :
    (predict_future result k).length = k ∧
    ∀ j, j < k → (predict_future result k).getD j 0 =
      result.intercept + result.slope *
        ((result.predictions.length : ℚ) + (j : ℚ)) := by
  constructor
  · simp [predict_future]
  · intro j hj
    simp [predict_future, List.getD_eq_getElem?_getD, List.getElem?_eq_getElem, hj]

theorem predict_future_spec_witness :
    (predict_future ⟨1, 1, 1, 0, [1, 2, 3, 4, 5]⟩ 3).length = 3 ∧
    (predict_future ⟨1, 1, 1, 0, [1, 2, 3, 4, 5]⟩ 3).getD 1 0 =
      (⟨1, 1, 1, 0, [1, 2, 3, 4, 5]⟩ : LinearRegressionResult).intercept +
        (⟨1, 1, 1, 0, [1, 2, 3, 4, 5]⟩ : LinearRegressionResult).slope *
          (((⟨1, 1, 1, 0, [1, 2, 3, 4, 5]⟩ :
              LinearRegressionResult).predictions.length : ℚ) + ((1 : ℕ) : ℚ)) :=
  ⟨(predict_future_spec ⟨1, 1, 1, 0, [1, 2, 3, 4, 5]⟩ 3).1,
   (predict_future_spec ⟨1, 1, 1, 0, [1, 2, 3, 4, 5]⟩ 3).2 1 (by decide)⟩

/-- Claim C6: every successful regression result has `r_squared ≤ 1` and
`mse ≥ 0`, and `r_squared` is exactly 1 when the residual variance (the MSE)
is zero. -/
theorem regression_metric_invariants (data : List ℚ) (r : LinearRegressionResult)
    (h : linear_regression data = Except.ok r) :
    r.r_squared ≤ 1 ∧ 0 ≤ r.mse ∧ (r.mse = 0 → r.r_squared = 1) := by
  have hlen : 2 ≤ data.length := by
    by_contra hc
    rw [linear_regression, if_pos (by omega)] at h
    exact Except.noConfusion h
  have heq := linear_regression_eq data hlen
  rw [h] at heq
  have hr := (Except.ok.injEq _ _).mp heq
  have hlenp : data.length = (specPredictions data).length := by simp [specPredictions]
  have hne : data ≠ [] := by
    intro hnil; rw [hnil] at hlen; simp at hlen
  refine ⟨?_, ?_, ?_⟩
  · rw [hr]
    exact calculate_r_squared_le_one _ _ _
  · rw [hr]
    exact calculate_mse_nonneg _ _
  · intro hmse
    rw [hr] at hmse ⊢
    simp only
    apply r_squared_one_of_rss_zero _ _ _ hlenp hne
    exact mse_zero_rss _ _ hlenp hne hmse

theorem regression_metric_invariants_witness :
    (⟨1, 0, 1, 0, [0, 1]⟩ : LinearRegressionResult).r_squared ≤ 1 ∧
    0 ≤ (⟨1, 0, 1, 0, [0, 1]⟩ : LinearRegressionResult).mse ∧
    ((⟨1, 0, 1, 0, [0, 1]⟩ : LinearRegressionResult).mse = 0 →
      (⟨1, 0, 1, 0, [0, 1]⟩ : LinearRegressionResult).r_squared = 1) :=
  regression_metric_invariants [0, 1] ⟨1, 0, 1, 0, [0, 1]⟩ linear_regression_example

/-- Claim C7: feeding a successful result's own predictions back to
`calculate_r_squared` as both actual and predicted, with that sequence's
mean, yields exactly 1. -/
theorem r_squared_roundtrip (data : List ℚ) (r : LinearRegressionResult)
    (h : linear_regression data = Except.ok r) :
    calculate_r_squared r.predictions r.predictions
      (r.predictions.sum / (r.predictions.length : ℚ)) = 1 := by
  have hlen : 2 ≤ data.length := by
    by_contra hc
    rw [linear_regression, if_pos (by omega)] at h
    exact Except.noConfusion h
  have heq := linear_regression_eq data hlen
  rw [h] at heq
  have hr := (Except.ok.injEq _ _).mp heq
  apply calculate_r_squared_self
  rw [hr]
  simp only
  have hplen : 0 < (specPredictions data).length := by
    simp [specPredictions]
    omega
  exact List.length_pos.mp hplen

theorem r_squared_roundtrip_witness :
    calculate_r_squared
      (⟨1, 0, 1, 0, [0, 1]⟩ : LinearRegressionResult).predictions
      (⟨1, 0, 1, 0, [0, 1]⟩ : LinearRegressionResult).predictions
      ((⟨1, 0, 1, 0, [0, 1]⟩ : LinearRegressionResult).predictions.sum /
        (((⟨1, 0, 1, 0, [0, 1]⟩ : LinearRegressionResult).predictions.length : ℕ) : ℚ)) = 1 :=
  r_squared_roundtrip [0, 1] ⟨1, 0, 1, 0, [0, 1]⟩ linear_regression_example

/-- Claim C8: for length at least 2 the slope denominator exceeds machine
epsilon, so the numerical-zero guard never trips and the slope is always
`numerator / denominator`. -/
theorem slope_guard_unreachable (data : List ℚ) (h : 2 ≤ data.length) :
    f64Epsilon < specSlopeDen data.length ∧
    ∃ r, linear_regression data = Except.ok r ∧
      r.slope = specSlopeNum data / specSlopeDen data.length := by
  have hden : (1 : ℚ)/2 ≤ specSlopeDen data.length := specSlopeDen_ge_half _ h
  have heps : f64Epsilon < specSlopeDen data.length :=
    lt_of_lt_of_le (by norm_num [f64Epsilon]) hden
  refine ⟨heps, _, linear_regression_eq data h, ?_⟩
  show specSlope data = _
  rw [specSlope, if_neg]
  rw [abs_of_nonneg (by linarith)]
  linarith

theorem slope_guard_unreachable_witness :
    2 ≤ ([0, 1] : List ℚ).length ∧
    (f64Epsilon < specSlopeDen ([0, 1] : List ℚ).length ∧
      ∃ r, linear_regression [0, 1] = Except.ok r ∧
        r.slope = specSlopeNum [0, 1] / specSlopeDen ([0, 1] : List ℚ).length) :=
  ⟨by decide, slope_guard_unreachable [0, 1] (by decide)⟩

/-- Claim C9: on empty or mismatched-length input, and on a combined value
range smaller than machine epsilon, `ascii_plot` outputs only one diagnostic
line and renders no grid rows. -/
theorem ascii_plot_guards (actual predicted : List ℚ) (t : String) :
    ((actual = [] ∨ actual.length ≠ predicted.length) →
      ascii_plot actual predicted t =
        [PlotLine.diagnostic "Dados inválidos para plotagem"]) ∧
    (actual ≠ [] → actual.length = predicted.length →
      |plotRange actual predicted| < f64Epsilon →
      ascii_plot actual predicted t =
        [PlotLine.diagnostic "Intervalo de dados muito pequeno para plotagem"]) ∧
    ∀ th cs, ((actual = [] ∨ actual.length ≠ predicted.length) ∨
        |plotRange actual predicted| < f64Epsilon) →
      PlotLine.gridRow th cs ∉ ascii_plot actual predicted t := by
  have h1 : (actual = [] ∨ actual.length ≠ predicted.length) →
      ascii_plot actual predicted t =
        [PlotLine.diagnostic "Dados inválidos para plotagem"] := by
    intro h
    unfold ascii_plot
    rw [if_pos]
    rcases h with h | h
    · left; simp [h]
    · right; exact h
  have h2 : actual ≠ [] → actual.length = predicted.length →
      |plotRange actual predicted| < f64Epsilon →
      ascii_plot actual predicted t =
        [PlotLine.diagnostic "Intervalo de dados muito pequeno para plotagem"] := by
    intro hne hlen hr
    unfold ascii_plot
    rw [if_neg, if_pos hr]
    intro hc
    rcases hc with hc | hc
    · exact hne (List.isEmpty_iff.mp hc)
    · exact hc hlen
  refine ⟨h1, h2, ?_⟩
  intro th cs h
  rcases h with h | h
  · rw [h1 h]; simp
  · by_cases hs : actual = [] ∨ actual.length ≠ predicted.length
    · rw [h1 hs]; simp
    · push_neg at hs
      rw [h2 hs.1 hs.2 h]; simp

theorem ascii_plot_guards_witness :
    ascii_plot [] [] "Vazio" = [PlotLine.diagnostic "Dados inválidos para plotagem"] ∧
    ascii_plot [5, 5] [5, 5] "Constantes" =
      [PlotLine.diagnostic "Intervalo de dados muito pequeno para plotagem"] := by
  constructor
  · exact (ascii_plot_guards [] [] "Vazio").1 (Or.inl rfl)
  · refine (ascii_plot_guards [5, 5] [5, 5] "Constantes").2.1 (by decide) rfl ?_
    have hmx : foldMax (([5, 5] : List ℚ) ++ [5, 5]) = ((5 : ℚ) : WithBot ℚ) := by decide
    have hmn : foldMin (([5, 5] : List ℚ) ++ [5, 5]) = ((5 : ℚ) : WithTop ℚ) := by decide
    rw [plotRange, hmx, hmn]
    simp only [WithBot.unbot'_coe, WithTop.untop'_coe]
    norm_num [f64Epsilon]

/-- Claim C10: `calculate_r_squared` has no lower bound; on
`actual = [0, 1]`, `predicted = [10, 10]`, `y_mean = 1/2` it is strictly
negative. -/
theorem r_squared_no_lower_bound :
    calculate_r_squared [0, 1] [10, 10] (1/2) < 0 := by
  have h : |(1 : ℚ)/2| = 1/2 := abs_of_nonneg (by norm_num)
  simp [calculate_r_squared, f64Epsilon]
  norm_num [h]

end Timewise
